import Mathlib

/-!
Verification of the quant_trader core (portfolio ledger, risk manager,
statistics engine) against its natural-language specification.

Shallow embedding conventions:
* Python floats are modelled as rationals (`ℚ`); a computation whose float
  result would be non-finite (NaN / ±inf from a zero denominator) is modelled
  by `Option`/`Except` with `none`/`.error` for the non-finite or raising case.
* Python dicts keyed by strings are modelled as association lists
  `List (String × _)` with first-match lookup.
* `np.random.choice` is modelled by an explicit index oracle supplied as a
  function argument; a uniform sampler is one instance of it.
* Mutation of a Python object is modelled by returning the updated value.
-/

namespace QuantTrader

/-- Embeds the `Position` dataclass of `quant_trader/portfolio.py`.
Dates are abstracted to integers (only equality matters to the claims);
the Greeks dict is an association list. `current_value` and `pnl` carry the
Python defaults `0.0`. -/
structure Position where
  symbol : String
  strategy_type : String
  entry_date : Int
  entry_price : ℚ
  quantity : Int
  strikes : List ℚ
  expiration : Int
  position_type : String
  greeks : List (String × ℚ)
  max_loss : ℚ
  max_profit : ℚ
  current_value : ℚ := 0
  pnl : ℚ := 0
deriving DecidableEq

/-- Embeds the trade-record dict appended by `Portfolio.close_position`. -/
structure TradeRecord where
  symbol : String
  strategy : String
  entry_date : Int
  exit_date : Int
  entry_price : ℚ
  exit_price : ℚ
  pnl : ℚ
  pnl_percent : ℚ
deriving DecidableEq

/-- Embeds the `Portfolio` object state of `quant_trader/portfolio.py`. -/
structure Portfolio where
  initial_capital : ℚ
  cash : ℚ
  positions : List Position
  closed_positions : List Position
  trade_history : List TradeRecord
deriving DecidableEq

/-- `Portfolio.__init__`: cash starts at `initial_capital`, all lists empty. -/
def Portfolio.init (initial_capital : ℚ) : Portfolio :=
  { initial_capital := initial_capital
    cash := initial_capital
    positions := []
    closed_positions := []
    trade_history := [] }

/-- `Portfolio.total_value`: cash plus the sum of `current_value` over open
positions. -/
def total_value (p : Portfolio) : ℚ :=
  p.cash + (p.positions.map Position.current_value).sum

/-- `Portfolio.add_position`: append to the open list and debit cash by
`entry_price * quantity`. -/
def add_position (p : Portfolio) (pos : Position) : Portfolio :=
  { p with
    positions := p.positions ++ [pos]
    cash := p.cash - pos.entry_price * (pos.quantity : ℚ) }

/-- `Portfolio.close_position`: realized pnl is `(exit - entry) * quantity`,
sign-flipped for shorts; cash is credited with `exit_price * quantity + pnl`;
the position moves to the closed list and a trade record is appended.
`none` models the two raising paths: an out-of-range index (IndexError) and a
zero `entry_price * quantity` (ZeroDivisionError in the record's
`pnl_percent`). -/
def close_position (p : Portfolio) (position_idx : ℕ) (exit_price : ℚ)
    (exit_date : Int) : Option (Portfolio × ℚ) :=
  match p.positions[position_idx]? with
  | none => none
  | some pos =>
    let pnl0 := (exit_price - pos.entry_price) * (pos.quantity : ℚ)
    let pnl := if pos.position_type = "short" then -pnl0 else pnl0
    if pos.entry_price * (pos.quantity : ℚ) = 0 then none
    else
      some
        ({ p with
            cash := p.cash + exit_price * (pos.quantity : ℚ) + pnl
            positions := p.positions.eraseIdx position_idx
            closed_positions := p.closed_positions ++ [{ pos with pnl := pnl }]
            trade_history := p.trade_history ++
              [{ symbol := pos.symbol
                 strategy := pos.strategy_type
                 entry_date := pos.entry_date
                 exit_date := exit_date
                 entry_price := pos.entry_price
                 exit_price := exit_price
                 pnl := pnl
                 pnl_percent := pnl / (pos.entry_price * (pos.quantity : ℚ)) * 100 }] },
         pnl)

/-- A market-data record: the `price` and `greeks` keys of the per-symbol dict.
`none` models an absent key. -/
structure MarketRecord where
  price : Option ℚ
  greeks : Option (List (String × ℚ))
deriving DecidableEq

/-- The body of the `update_positions` loop for one position: if the symbol is
absent from `market_data` the position is untouched; otherwise
`current_value` is set to the record's `price` (a missing `price` key raises
KeyError, modelled `none`), `greeks` is overwritten only when the record has a
`greeks` key (`dict.get` with the old value as default), and `pnl` is
recomputed with the short sign flip. -/
def updatePos (market_data : List (String × MarketRecord)) (pos : Position) :
    Option Position :=
  match market_data.lookup pos.symbol with
  | none => some pos
  | some rec =>
    match rec.price with
    | none => none
    | some pr =>
      let g := rec.greeks.getD pos.greeks
      let pnl0 := (pr - pos.entry_price) * (pos.quantity : ℚ)
      let pnl := if pos.position_type = "short" then -pnl0 else pnl0
      some { pos with current_value := pr, greeks := g, pnl := pnl }

/-- The `for position in self.positions` loop of `update_positions`. On a
KeyError the loop aborts; `none` records only that the call raises (the
partially-updated prefix kept by the Python object is not modelled). -/
def updateList (market_data : List (String × MarketRecord)) :
    List Position → Option (List Position)
  | [] => some []
  | pos :: rest =>
    match updatePos market_data pos with
    | none => none
    | some pos' => (updateList market_data rest).map (pos' :: ·)

/-- `Portfolio.update_positions`. -/
def update_positions (p : Portfolio) (market_data : List (String × MarketRecord)) :
    Option Portfolio :=
  (updateList market_data p.positions).map (fun ps => { p with positions := ps })

/-- Embeds the `RiskManager` object of `quant_trader/risk.py`: the four
configured limits plus the three mutable metrics, all floats. -/
structure RiskManager where
  max_position_size : ℚ
  max_portfolio_heat : ℚ
  max_drawdown : ℚ
  max_daily_loss : ℚ
  current_heat : ℚ
  daily_pnl : ℚ
  peak_equity : ℚ
deriving DecidableEq

/-- `RiskManager.__init__` with the given limits: the mutable metrics start
at `0.0`. -/
def RiskManager.init (mps mph mdd mdl : ℚ) : RiskManager :=
  { max_position_size := mps
    max_portfolio_heat := mph
    max_drawdown := mdd
    max_daily_loss := mdl
    current_heat := 0
    daily_pnl := 0
    peak_equity := 0 }

/-- Python `int(q)`: truncation toward zero. -/
def pyInt (q : ℚ) : Int := if q < 0 then -⌊-q⌋ else ⌊q⌋

/-- `RiskManager.calculate_position_size`. The `fixed_risk` branch returns 0
on a zero risk-per-contract and otherwise `max(1, int(risk/rpc))`; the
`kelly_criterion` and fallthrough branches both compute
`int(capital*max_position_size/entry_price)`, raising ZeroDivisionError
(`none`) when `entry_price` is zero. -/
def calculate_position_size (rm : RiskManager) (capital entry_price stop_loss : ℚ)
    (method : String) : Option Int :=
  if method = "fixed_risk" then
    let risk_amount := capital * rm.max_position_size
    let risk_per_contract := |entry_price - stop_loss|
    if risk_per_contract = 0 then some 0
    else some (max 1 (pyInt (risk_amount / risk_per_contract)))
  else if method = "kelly_criterion" then
    if entry_price = 0 then none
    else some (pyInt (capital * rm.max_position_size / entry_price))
  else
    if entry_price = 0 then none
    else some (pyInt (capital * rm.max_position_size / entry_price))

/-- The `(allowed, reason)` outcome of `check_position_allowed`. The reason
string is modelled structurally: each rejection constructor names the limit
the string text names and carries the numbers interpolated into it (the raw
fractions; rendering multiplies by 100 and rounds to 2 decimals). -/
inductive CheckReason where
  | positionSizeExceeded (pct limit : ℚ)
  | portfolioHeatExceeded (heat limit : ℚ)
  | dailyLossReached (pct : ℚ)
  | positionAllowed
deriving DecidableEq

/-- `RiskManager.check_position_allowed`: ordered checks, first failure wins;
`current_positions` is accepted but read by no check. -/
def check_position_allowed (rm : RiskManager) (position_risk capital : ℚ)
    (current_positions : Int) : Bool × CheckReason :=
  let position_risk_pct := position_risk / capital
  if position_risk_pct > rm.max_position_size then
    (false, .positionSizeExceeded position_risk_pct rm.max_position_size)
  else
    let new_total_heat := rm.current_heat + position_risk_pct
    if new_total_heat > rm.max_portfolio_heat then
      (false, .portfolioHeatExceeded new_total_heat rm.max_portfolio_heat)
    else
      let daily_loss_pct := if rm.daily_pnl < 0 then |rm.daily_pnl| / capital else 0
      if daily_loss_pct > rm.max_daily_loss then
        (false, .dailyLossReached daily_loss_pct)
      else (true, .positionAllowed)

/-- `RiskManager.update_risk_metrics`, statement by statement: `daily_pnl` is
assigned first; the division computing `current_heat` raises
ZeroDivisionError when `current_equity` is zero, so `.error` carries the
object state at the point of failure (daily_pnl already overwritten, the
other two metrics untouched); otherwise `peak_equity` is raised to a new
high and the final state is returned in `.ok`. -/
def update_risk_metrics (rm : RiskManager) (current_equity daily_pnl
    open_position_risk : ℚ) : Except RiskManager RiskManager :=
  let rm1 := { rm with daily_pnl := daily_pnl }
  if current_equity = 0 then .error rm1
  else
    let rm2 := { rm1 with current_heat := open_position_risk / current_equity }
    if current_equity > rm2.peak_equity then
      .ok { rm2 with peak_equity := current_equity }
    else .ok rm2

/-- The `(triggered, reason)` outcome of `check_circuit_breaker`, with the
reason string modelled structurally as in `CheckReason`. -/
inductive BreakerReason where
  | drawdownExceeded (drawdown : ℚ)
  | dailyLossExceeded (pct : ℚ)
  | noTrigger
deriving DecidableEq

/-- `RiskManager.check_circuit_breaker`: drawdown check first, then the daily
loss check, both guarded by `peak_equity > 0`; the method reads the object
and assigns nothing, so it is embedded as a pure function of the state. -/
def check_circuit_breaker (rm : RiskManager) (current_equity : ℚ) :
    Bool × BreakerReason :=
  let drawdown := (rm.peak_equity - current_equity) / rm.peak_equity
  if rm.peak_equity > 0 ∧ drawdown > rm.max_drawdown then
    (true, .drawdownExceeded drawdown)
  else
    let daily_loss_pct := |rm.daily_pnl / rm.peak_equity|
    if rm.peak_equity > 0 ∧ rm.daily_pnl < 0 ∧ daily_loss_pct > rm.max_daily_loss then
      (true, .dailyLossExceeded daily_loss_pct)
    else (false, .noTrigger)

/-- `pandas.Series.mean`: sum over length; `none` models the NaN an empty
series produces. -/
def pMean (xs : List ℚ) : Option ℚ :=
  if xs.length = 0 then none else some (xs.sum / (xs.length : ℚ))

/-- The square of `pandas.Series.std` (sample standard deviation, `ddof = 1`):
`Σ (x - mean)² / (n - 1)`; `none` models the NaN a series of length ≤ 1
produces. The std itself is its square root, so std = 0 iff this is 0. -/
def pSampleVar (xs : List ℚ) : Option ℚ :=
  if xs.length ≤ 1 then none
  else
    let m := xs.sum / (xs.length : ℚ)
    some ((xs.map (fun x => (x - m) ^ 2)).sum / ((xs.length : ℚ) - 1))

/-- `calculate_sharpe_ratio` of `quant_trader/portfolio.py`: excess returns
over the daily risk-free rate `rf/252`, then `sqrt(252)·mean/std` with no
guard on the denominator. The finite float value is `√252·m/√v` for the pair
`(m, v)` returned here; `none` models the non-finite float the unguarded
division produces when the std is NaN (length ≤ 1) or exactly 0. -/
def calculate_sharpe_ratio (returns : List ℚ) (risk_free_rate : ℚ) :
    Option (ℚ × ℚ) :=
  let excess_returns := returns.map (fun r => r - risk_free_rate / 252)
  match pMean excess_returns, pSampleVar excess_returns with
  | some m, some v => if v = 0 then none else some (m, v)
  | _, _ => none

/-- The `profit_factor` entry of `Portfolio.get_metrics`: a float that is
`float('inf')` when there is no losing trade. -/
inductive PFValue where
  | val (q : ℚ)
  | posInf
deriving DecidableEq

/-- The dict returned by `Portfolio.get_metrics`. -/
structure Metrics where
  total_trades : ℕ
  win_rate : ℚ
  avg_win : ℚ
  avg_loss : ℚ
  profit_factor : PFValue
deriving DecidableEq

/-- `Portfolio.get_metrics`: the all-zero record when there is no closed
position; otherwise win rate, average win, absolute average loss and
`Σwins / |Σlosses|` (`posInf` when there is no loss) over the closed
positions' pnl values. -/
def get_metrics (p : Portfolio) : Metrics :=
  if p.closed_positions.length = 0 then
    { total_trades := 0, win_rate := 0, avg_win := 0, avg_loss := 0
      profit_factor := .val 0 }
  else
    let trades := p.closed_positions.map Position.pnl
    let wins := trades.filter (fun q => decide (0 < q))
    let losses := trades.filter (fun q => decide (q < 0))
    { total_trades := trades.length
      win_rate := (wins.length : ℚ) / (trades.length : ℚ) * 100
      avg_win := if wins.length = 0 then 0 else wins.sum / (wins.length : ℚ)
      avg_loss := if losses.length = 0 then 0 else |losses.sum / (losses.length : ℚ)|
      profit_factor := if losses.length = 0 then .posInf
                       else .val (wins.sum / |losses.sum|) }

/-- One historical trade as consumed by `monte_carlo_simulation` (the only
key it reads is `pnl`). -/
structure Trade where
  pnl : ℚ
deriving DecidableEq

/-- `np.cumsum` on a list. -/
def cumsum (xs : List ℚ) : List ℚ :=
  (xs.foldl (fun acc x => (acc.headD 0 + x) :: acc) []).reverse

/-- The `mean_return` entry of `monte_carlo_simulation` of
`quant_trader/backtest.py`. `np.random.choice(returns, size=n_trades,
replace=True)` is modelled by the index oracle `pick`: sample `j` of
simulation `i` is `returns[pick i j % len(returns)]`; any oracle is a possible
random draw and a uniform one is one instance. Each simulated equity path is
the cumulative sum of the samples and its final value (`equity[-1]`) is
collected; `mean_return` is `np.mean` of those finals. The drawdown outputs
and the other summary entries of the returned dict read only
`final_returns`/`max_drawdowns` and are not modelled. -/
def monte_carlo_mean_return (trades : List Trade) (n_simulations : ℕ)
    (n_trades : Option ℕ) (pick : ℕ → ℕ → ℕ) : ℚ :=
  let nt := n_trades.getD trades.length
  let returns := trades.map Trade.pnl
  let final_returns := (List.range n_simulations).map (fun i =>
    let simulated_trades := (List.range nt).map (fun j =>
      returns.getD (pick i j % returns.length) 0)
    (cumsum simulated_trades).getLastD 0)
  final_returns.sum / (final_returns.length : ℚ)

/-- Clamping at 1 erases the difference between Python `int` truncation and
the floor: both agree on nonnegative arguments, and both are at most 0 on
negative ones. -/
lemma max_one_pyInt (q : ℚ) : max 1 (pyInt q) = max 1 ⌊q⌋ := by
  unfold pyInt
  by_cases h : q < 0
  · have h1 : ⌊q⌋ ≤ 0 := by
      have := Int.floor_le_floor (α := ℚ) h.le
      simpa using this
    have h2 : -⌊-q⌋ ≤ 0 := by
      have : (0 : ℚ) ≤ -q := by linarith
      have := Int.le_floor.mpr (by simpa using this : ((0 : ℤ) : ℚ) ≤ -q)
      omega
    rw [if_pos h, max_eq_left (by omega), max_eq_left (by omega)]
  · rw [if_neg h]

/-- Claim C8: with method `"fixed_risk"`, `calculate_position_size` returns 0
when `|entry_price - stop_loss| = 0` and otherwise
`max 1 ⌊capital * max_position_size / |entry_price - stop_loss|⌋`. -/
theorem c8_fixed_risk_size (rm : RiskManager) (capital entry_price stop_loss : ℚ) :
    calculate_position_size rm capital entry_price stop_loss "fixed_risk"
      = some (if |entry_price - stop_loss| = 0 then 0
              else max 1 ⌊capital * rm.max_position_size / |entry_price - stop_loss|⌋) := by
  unfold calculate_position_size
  rw [if_pos rfl]
  by_cases h : |entry_price - stop_loss| = 0
  · rw [if_pos h, if_pos h]
  · rw [if_neg h, if_neg h, max_one_pyInt]

/-- Claim C3: whenever `capital > 0` and `position_risk / capital` exceeds
`max_position_size`, `check_position_allowed` rejects with the per-trade
position-size reason carrying the offending percentage and the limit,
regardless of `current_heat`, `daily_pnl` and the other limits. -/
theorem c3_position_size_rejects (rm : RiskManager) (position_risk capital : ℚ)
    (current_positions : Int) (hc : 0 < capital)
    (h : position_risk / capital > rm.max_position_size) :
    check_position_allowed rm position_risk capital current_positions
      = (false, CheckReason.positionSizeExceeded (position_risk / capital)
          rm.max_position_size) := by
  unfold check_position_allowed
  rw [if_pos h]

theorem c3_position_size_rejects_witness :
    check_position_allowed (RiskManager.init (2/100) (10/100) (20/100) (5/100)) 5 100 0
      = (false, CheckReason.positionSizeExceeded ((5 : ℚ) / 100)
          (RiskManager.init (2/100) (10/100) (20/100) (5/100)).max_position_size) :=
  c3_position_size_rejects (RiskManager.init (2/100) (10/100) (20/100) (5/100))
    5 100 0 (by norm_num) (by norm_num [RiskManager.init])

/-- Claim C10: `update_risk_metrics` succeeds for nonzero `current_equity`,
setting `current_heat = open_position_risk / current_equity`, `daily_pnl` to
the argument, and raising `peak_equity` monotonically; at `current_equity = 0`
it raises ZeroDivisionError with `daily_pnl` already overwritten but
`current_heat` and `peak_equity` untouched — the failed update is not
atomic. -/
theorem c10_update_risk_metrics (rm : RiskManager) (ce dp opr : ℚ) :
    (ce ≠ 0 → ∃ rm', update_risk_metrics rm ce dp opr = .ok rm'
        ∧ rm'.current_heat = opr / ce ∧ rm'.daily_pnl = dp
        ∧ rm'.peak_equity = (if ce > rm.peak_equity then ce else rm.peak_equity))
    ∧ (ce = 0 → ∃ rm', update_risk_metrics rm ce dp opr = .error rm'
        ∧ rm'.daily_pnl = dp ∧ rm'.current_heat = rm.current_heat
        ∧ rm'.peak_equity = rm.peak_equity) := by
  constructor
  · intro hne
    unfold update_risk_metrics
    rw [if_neg hne]
    by_cases hpk : ce > rm.peak_equity
    · rw [if_pos hpk]
      exact ⟨_, rfl, rfl, rfl, by simp [hpk]⟩
    · rw [if_neg hpk]
      exact ⟨_, rfl, rfl, rfl, by simp [hpk]⟩
  · intro hz
    unfold update_risk_metrics
    rw [if_pos hz]
    exact ⟨_, rfl, rfl, rfl, rfl⟩

theorem c10_update_risk_metrics_witness :
    (∃ rm', update_risk_metrics (RiskManager.init (2/100) (10/100) (20/100) (5/100))
          200 (-5) 10 = .ok rm'
        ∧ rm'.current_heat = 10 / 200 ∧ rm'.daily_pnl = -5
        ∧ rm'.peak_equity
            = (if (200 : ℚ) > (RiskManager.init (2/100) (10/100) (20/100) (5/100)).peak_equity
               then 200
               else (RiskManager.init (2/100) (10/100) (20/100) (5/100)).peak_equity))
    ∧ (∃ rm', update_risk_metrics (RiskManager.init (2/100) (10/100) (20/100) (5/100))
          0 (-5) 10 = .error rm'
        ∧ rm'.daily_pnl = -5
        ∧ rm'.current_heat
            = (RiskManager.init (2/100) (10/100) (20/100) (5/100)).current_heat
        ∧ rm'.peak_equity
            = (RiskManager.init (2/100) (10/100) (20/100) (5/100)).peak_equity) :=
  ⟨(c10_update_risk_metrics (RiskManager.init (2/100) (10/100) (20/100) (5/100))
      200 (-5) 10).1 (by norm_num),
   (c10_update_risk_metrics (RiskManager.init (2/100) (10/100) (20/100) (5/100))
      0 (-5) 10).2 rfl⟩

/-- Claim C4: with `peak_equity > 0`, `check_circuit_breaker` reports
triggered with the drawdown reason iff
`(peak_equity - current_equity)/peak_equity` strictly exceeds `max_drawdown`;
when the drawdown is at or below the limit and the daily-loss condition does
not hold, nothing triggers. (The method reads the object and assigns
nothing; it is embedded as a pure function of the state.) -/
theorem c4_circuit_breaker (rm : RiskManager) (ce : ℚ)
    (hpk : 0 < rm.peak_equity) :
    ((check_circuit_breaker rm ce
        = (true, BreakerReason.drawdownExceeded
            ((rm.peak_equity - ce) / rm.peak_equity)))
      ↔ (rm.peak_equity - ce) / rm.peak_equity > rm.max_drawdown)
    ∧ ((rm.peak_equity - ce) / rm.peak_equity ≤ rm.max_drawdown →
        ¬ (rm.daily_pnl < 0 ∧ |rm.daily_pnl / rm.peak_equity| > rm.max_daily_loss) →
        check_circuit_breaker rm ce = (false, BreakerReason.noTrigger)) := by
  unfold check_circuit_breaker
  by_cases hdd : (rm.peak_equity - ce) / rm.peak_equity > rm.max_drawdown
  · refine ⟨⟨fun _ => hdd, fun _ => ?_⟩, fun hle _ => absurd hdd (not_lt.mpr hle)⟩
    rw [if_pos ⟨hpk, hdd⟩]
  · have hno : ¬ (rm.peak_equity > 0
        ∧ (rm.peak_equity - ce) / rm.peak_equity > rm.max_drawdown) := by
      exact fun hc => hdd hc.2
    constructor
    · rw [if_neg hno]
      constructor
      · intro heq
        by_cases hdl : rm.peak_equity > 0 ∧ rm.daily_pnl < 0
            ∧ |rm.daily_pnl / rm.peak_equity| > rm.max_daily_loss
        · rw [if_pos hdl] at heq
          simp at heq
        · rw [if_neg hdl] at heq
          simp at heq
      · intro hc
        exact absurd hc hdd
    · intro _ hnd
      rw [if_neg hno, if_neg (fun hc => hnd hc.2)]

theorem c4_circuit_breaker_witness :
    ((check_circuit_breaker
        { max_position_size := 2/100, max_portfolio_heat := 10/100
          max_drawdown := 20/100, max_daily_loss := 5/100
          current_heat := 0, daily_pnl := 0, peak_equity := 100 } 70
        = (true, BreakerReason.drawdownExceeded (((100 : ℚ) - 70) / 100)))
      ↔ ((100 : ℚ) - 70) / 100 > (20 : ℚ)/100)
    ∧ (((100 : ℚ) - 70) / 100 ≤ (20 : ℚ)/100 →
        ¬ ((0 : ℚ) < 0 ∧ |(0 : ℚ) / 100| > (5 : ℚ)/100) →
        check_circuit_breaker
          { max_position_size := 2/100, max_portfolio_heat := 10/100
            max_drawdown := 20/100, max_daily_loss := 5/100
            current_heat := 0, daily_pnl := 0, peak_equity := 100 } 70
          = (false, BreakerReason.noTrigger)) :=
  c4_circuit_breaker
    { max_position_size := 2/100, max_portfolio_heat := 10/100
      max_drawdown := 20/100, max_daily_loss := 5/100
      current_heat := 0, daily_pnl := 0, peak_equity := 100 } 70 (by norm_num)

/-- Claim C5 fails on the code: on the constant return series
`[0.01, 0.01]` the excess-return series has sample standard deviation
exactly 0, and `calculate_sharpe_ratio` — which divides by the std with no
guard, unlike `calculate_sortino_ratio` — produces a non-finite float
(modelled `none`) instead of the sentinel 0 the spec requires. -/
theorem c5_sharpe_zero_std_not_sentinel :
    pSampleVar ([(1 : ℚ)/100, 1/100].map (fun r => r - (2/100 : ℚ) / 252)) = some 0
    ∧ calculate_sharpe_ratio [(1 : ℚ)/100, 1/100] (2/100) = none := by
  constructor
  · norm_num [pSampleVar]
  · norm_num [calculate_sharpe_ratio, pMean, pSampleVar]

/-- Claim C6: on a one-element trade history with pnl `x`, one simulation and
the default trade count, the Monte Carlo `mean_return` is exactly `x`,
whatever indices the random sampler draws. -/
theorem c6_monte_carlo_single_trade (x : ℚ) (pick : ℕ → ℕ → ℕ) :
    monte_carlo_mean_return [{ pnl := x }] 1 none pick = x := by
  simp [monte_carlo_mean_return, cumsum, Nat.mod_one]

/-- A sample open position: a long vertical spread entered at 10 for one
contract, with the dataclass defaults `current_value = 0`, `pnl = 0`. -/
def samplePosition : Position :=
  { symbol := "SPY", strategy_type := "vertical_spread", entry_date := 0
    entry_price := 10, quantity := 1, strikes := [95, 105], expiration := 30
    position_type := "long", greeks := [("delta", 1/2)]
    max_loss := 5, max_profit := 5 }

/-- A portfolio of 100 initial capital holding `samplePosition`, obtained by
`add_position` on a fresh portfolio. -/
def samplePortfolio : Portfolio := add_position (Portfolio.init 100) samplePosition

/-- Claim C1 fails on the code: immediately after `add_position` on a fresh
portfolio of 100, `total_value` is 90 — cash was debited by the entry cost
while the open position is carried at its default `current_value` 0 — whereas
`initial_capital` plus the pnl of all closed and open positions is 100. -/
theorem c1_total_value_not_conserved :
    total_value samplePortfolio = 90
    ∧ samplePortfolio.initial_capital
        + ((samplePortfolio.closed_positions.map Position.pnl).sum
            + (samplePortfolio.positions.map Position.pnl).sum) = 100
    ∧ total_value samplePortfolio
        ≠ samplePortfolio.initial_capital
            + ((samplePortfolio.closed_positions.map Position.pnl).sum
                + (samplePortfolio.positions.map Position.pnl).sum) := by
  refine ⟨?_, ?_, ?_⟩ <;>
    norm_num [samplePortfolio, samplePosition, add_position, Portfolio.init,
      total_value]

/-- A market update for `samplePosition`'s symbol that carries both a price
and a fresh greeks snapshot. -/
def sampleMarketData : List (String × MarketRecord) :=
  [("SPY", { price := some 12, greeks := some [("delta", 3/4)] })]

/-- Claim C2 fails on the code: an `update_positions` call whose market
record carries a `greeks` key overwrites the position's `greeks` field (line
121 of portfolio.py), so `greeks` is not unchanged by the call. -/
theorem c2_greeks_mutated_counterexample :
    (update_positions samplePortfolio sampleMarketData).map
        (fun q => q.positions.map Position.greeks)
      = some [[("delta", 3/4)]]
    ∧ samplePortfolio.positions.map Position.greeks = [[("delta", 1/2)]]
    ∧ ([[("delta", (3 : ℚ)/4)]] : List (List (String × ℚ))) ≠ [[("delta", 1/2)]] := by
  refine ⟨?_, ?_, ?_⟩
  · simp [update_positions, updateList, updatePos, samplePortfolio,
      samplePosition, sampleMarketData, add_position, Portfolio.init,
      List.lookup]
  · simp [samplePortfolio, samplePosition, add_position, Portfolio.init]
  · norm_num

/-- The frame of one `update_positions` step: every field of the position
other than `current_value`, `pnl` and `greeks` is preserved, and `greeks`
either survives unchanged or is exactly the snapshot supplied by the matched
market record. -/
def FrameOK (market_data : List (String × MarketRecord)) (pos pos' : Position) :
    Prop :=
  pos'.symbol = pos.symbol ∧ pos'.strategy_type = pos.strategy_type
  ∧ pos'.entry_date = pos.entry_date ∧ pos'.entry_price = pos.entry_price
  ∧ pos'.quantity = pos.quantity ∧ pos'.strikes = pos.strikes
  ∧ pos'.expiration = pos.expiration ∧ pos'.position_type = pos.position_type
  ∧ pos'.max_loss = pos.max_loss ∧ pos'.max_profit = pos.max_profit
  ∧ (pos'.greeks = pos.greeks
     ∨ ∃ rec, market_data.lookup pos.symbol = some rec
         ∧ rec.greeks = some pos'.greeks)

lemma frameOK_of_updatePos (market_data : List (String × MarketRecord))
    (pos pos' : Position) (h : updatePos market_data pos = some pos') :
    FrameOK market_data pos pos' := by
  unfold updatePos at h
  split at h
  · cases h
    exact ⟨rfl, rfl, rfl, rfl, rfl, rfl, rfl, rfl, rfl, rfl, Or.inl rfl⟩
  · rename_i rec hL
    split at h
    · cases h
    · rename_i pr hP
      cases h
      refine ⟨rfl, rfl, rfl, rfl, rfl, rfl, rfl, rfl, rfl, rfl, ?_⟩
      cases hG : rec.greeks with
      | none => exact Or.inl (by simp [hG])
      | some gs => exact Or.inr ⟨rec, hL, by simp [hG]⟩

/-- Claim C2, amended: a successful `update_positions` mutates at most the
`current_value`, `pnl` and `greeks` fields of each open position, and
`greeks` changes only when the matched market record supplies a greeks
snapshot; every other field — in particular `max_loss` and `max_profit` — is
unchanged. -/
theorem c2_update_frame (market_data : List (String × MarketRecord))
    (ps ps' : List Position) (h : updateList market_data ps = some ps') :
    List.Forall₂ (FrameOK market_data) ps ps' := by
  induction ps generalizing ps' with
  | nil =>
    simp only [updateList] at h
    cases h
    exact .nil
  | cons pos rest ih =>
    simp only [updateList] at h
    cases hU : updatePos market_data pos with
    | none => rw [hU] at h; cases h
    | some pos' =>
      rw [hU] at h
      cases hR : updateList market_data rest with
      | none => rw [hR] at h; cases h
      | some rest' =>
        rw [hR] at h
        cases h
        exact .cons (frameOK_of_updatePos market_data pos pos' hU) (ih rest' hR)

/-- `samplePosition` as `update_positions` leaves it after consuming
`sampleMarketData`: marked at 12, greeks overwritten, pnl 2. -/
def updatedSamplePosition : Position :=
  { samplePosition with
    current_value := 12
    greeks := [("delta", 3/4)]
    pnl := 2 }

theorem c2_update_frame_witness :
    List.Forall₂ (FrameOK sampleMarketData) [samplePosition]
      [updatedSamplePosition] :=
  c2_update_frame sampleMarketData [samplePosition] [updatedSamplePosition]
    (by norm_num [updateList, updatePos, sampleMarketData, samplePosition,
      updatedSamplePosition, List.lookup]
        <;> decide)

/-- A market update for `samplePosition`'s symbol whose record lacks the
`price` key. -/
def priceLessMarketData : List (String × MarketRecord) :=
  [("SPY", { price := none, greeks := some [("delta", 3/4)] })]

/-- Claim C7 fails on the code: a matched market record without a `price` key
makes `update_positions` raise a KeyError (`market_data[symbol]['price']` is
an unguarded subscript), modelled by `none`; the call does not leave the
position's last mark in place. -/
theorem c7_missing_price_counterexample :
    update_positions samplePortfolio priceLessMarketData = none
    ∧ update_positions samplePortfolio priceLessMarketData
        ≠ some samplePortfolio := by
  have h : update_positions samplePortfolio priceLessMarketData = none := by
    simp [update_positions, updateList, updatePos, samplePortfolio,
      samplePosition, priceLessMarketData, add_position, Portfolio.init,
      List.lookup]
  exact ⟨h, by rw [h]; exact fun hc => Option.noConfusion hc⟩

lemma updateList_none_of_missing_price (market_data : List (String × MarketRecord))
    (ps : List Position) (pos : Position) (rec : MarketRecord)
    (hmem : pos ∈ ps) (hl : market_data.lookup pos.symbol = some rec)
    (hp : rec.price = none) : updateList market_data ps = none := by
  induction ps with
  | nil => cases hmem
  | cons q rest ih =>
    rcases List.mem_cons.mp hmem with hq | hq
    · subst hq
      simp only [updateList, updatePos, hl, hp]
    · simp only [updateList]
      cases hU : updatePos market_data q with
      | none => rfl
      | some q' => rw [ih hq]; rfl

/-- Claim C7, amended: a record that matches an open position's symbol but
lacks the `price` field makes `update_positions` fail with a KeyError rather
than keeping the last mark; only a missing `greeks` field is treated as no
update. -/
theorem c7_missing_price_raises (p : Portfolio)
    (market_data : List (String × MarketRecord)) (pos : Position)
    (rec : MarketRecord) (hmem : pos ∈ p.positions)
    (hl : market_data.lookup pos.symbol = some rec) (hp : rec.price = none) :
    update_positions p market_data = none := by
  unfold update_positions
  rw [updateList_none_of_missing_price market_data p.positions pos rec hmem hl hp]
  rfl

theorem c7_missing_price_raises_witness :
    update_positions samplePortfolio priceLessMarketData = none :=
  c7_missing_price_raises samplePortfolio priceLessMarketData samplePosition
    { price := none, greeks := some [("delta", 3/4)] }
    (by simp [samplePortfolio, add_position, Portfolio.init])
    (by simp [priceLessMarketData, samplePosition, List.lookup]) rfl

/-- Claim C9: `get_metrics` over zero closed positions is the all-zero record
(no NaN/∞ from the 0/0 cases); over a nonempty closed list with no losing
trade the profit factor is `+∞`; and `avg_loss` is always reported as a
non-negative (absolute) value. -/
theorem c9_metrics (p : Portfolio) :
    (p.closed_positions = [] →
      get_metrics p = { total_trades := 0, win_rate := 0, avg_win := 0
                        avg_loss := 0, profit_factor := .val 0 })
    ∧ (p.closed_positions ≠ [] →
        (∀ pos ∈ p.closed_positions, ¬ pos.pnl < 0) →
        (get_metrics p).profit_factor = .posInf)
    ∧ 0 ≤ (get_metrics p).avg_loss := by
  refine ⟨?_, ?_, ?_⟩
  · intro h
    simp [get_metrics, h]
  · intro hne hnl
    have hlen : ¬ p.closed_positions.length = 0 := by
      simpa [List.length_eq_zero] using hne
    have hfilter : (p.closed_positions.map Position.pnl).filter
        (fun q => decide (q < 0)) = [] := by
      rw [List.filter_eq_nil]
      intro a ha
      rcases List.mem_map.mp ha with ⟨pos, hpos, rfl⟩
      simpa using hnl pos hpos
    simp only [get_metrics, if_neg hlen, hfilter]
    simp
  · by_cases h : p.closed_positions.length = 0
    · simp [get_metrics, h]
    · simp only [get_metrics, if_neg h]
      split
      · exact le_refl 0
      · exact abs_nonneg _

/-- A portfolio whose only closed trade is a 5-point winner. -/
def winPortfolio : Portfolio :=
  { Portfolio.init 100 with closed_positions := [{ samplePosition with pnl := 5 }] }

theorem c9_metrics_witness :
    get_metrics (Portfolio.init 100)
      = { total_trades := 0, win_rate := 0, avg_win := 0
          avg_loss := 0, profit_factor := .val 0 }
    ∧ (get_metrics winPortfolio).profit_factor = .posInf
    ∧ 0 ≤ (get_metrics winPortfolio).avg_loss :=
  ⟨(c9_metrics (Portfolio.init 100)).1 rfl,
   (c9_metrics winPortfolio).2.1 (by simp [winPortfolio, Portfolio.init])
     (by
       intro pos hpos
       simp [winPortfolio, Portfolio.init] at hpos
       subst hpos
       norm_num [samplePosition]),
   (c9_metrics winPortfolio).2.2⟩

end QuantTrader
